import Mathlib

/-!
# Verification of the rusgit object store (src/main.rs)

Shallow embedding of the repository's core: the object codec
(GitObject), the object store (read_object / write_object), the path
helpers (repo_path / repo_file / repo_dir) and repository discovery
(repo_find).  Byte buffers are lists of naturals (each byte < 256),
paths are lists of components from the filesystem root, and the
filesystem is an explicit state value threaded through the operations.

External library functions used by the source are modelled from their
documented behaviour:
  * the sha1 crate: a full executable SHA-1 implementation below;
  * zlib (flate2): `write_object` compresses before writing and
    `read_object` decompresses after reading; since compression is a
    lossless inverse pair, files in the model store the uncompressed
    byte sequence directly;
  * `String::from_utf8` / `str::from_utf8`: modelled on the ASCII
    subset (every byte sequence produced by the store's own writer is
    ASCII); a byte >= 128 is treated as a decode failure;
  * `str::parse::<usize>`: digits-only decimal parse with the 64-bit
    overflow bound (the Rust parser additionally accepts a leading '+',
    which the store never produces).

Rust panics (assert!, unwrap on None, todo!, out-of-range slicing,
expect) abort the process; they are modelled by the `GitError.panic`
constructor so that the distinction between a typed returned error and
a process abort is visible in the results.
-/

set_option maxRecDepth 100000

deriving instance DecidableEq for Except

/-! ## SHA-1 (models the sha1 crate: Sha1::new / update / finalize) -/

/-- 32-bit left rotation, on naturals below 2 to the 32. -/
def rotl32 (n x : Nat) : Nat :=
  ((x <<< n) ||| (x >>> (32 - n))) % 4294967296

/-- Big-endian 4-byte encoding of a 32-bit word. -/
def toBE32 (w : Nat) : List Nat :=
  [(w >>> 24) % 256, (w >>> 16) % 256, (w >>> 8) % 256, w % 256]

/-- Big-endian 8-byte encoding of a 64-bit word. -/
def toBE64 (w : Nat) : List Nat :=
  [(w >>> 56) % 256, (w >>> 48) % 256, (w >>> 40) % 256, (w >>> 32) % 256,
   (w >>> 24) % 256, (w >>> 16) % 256, (w >>> 8) % 256, w % 256]

/-- Group bytes into big-endian 32-bit words (input length a multiple of 4). -/
def bytesToWordsBE : List Nat → List Nat
  | a :: b :: c :: d :: rest => (((a * 256 + b) * 256 + c) * 256 + d) :: bytesToWordsBE rest
  | _ => []

/-- SHA-1 padding: append 0x80, zeros to 56 mod 64, then the 64-bit
big-endian bit length. -/
def sha1PadBytes (msg : List Nat) : List Nat :=
  let len := msg.length
  let z := (119 - (len % 64)) % 64
  msg ++ 128 :: List.replicate z 0 ++ toBE64 (len * 8)

/-- Take `n` chunks of 64 bytes from the front of `l`. -/
def chunksN : Nat → List Nat → List (List Nat)
  | 0, _ => []
  | n + 1, l => l.take 64 :: chunksN n (l.drop 64)

/-- Split a byte list into 64-byte chunks (the padded message's length
is always a positive multiple of 64). -/
def chunks64 (l : List Nat) : List (List Nat) :=
  chunksN ((l.length + 63) / 64) l

/-- One step of the SHA-1 message-schedule extension. -/
def sha1ExtendStep (w : List Nat) : List Nat :=
  let n := w.length
  w ++ [rotl32 1 ((((w.getD (n - 3) 0) ^^^ (w.getD (n - 8) 0)) ^^^ (w.getD (n - 14) 0)) ^^^ (w.getD (n - 16) 0))]

/-- Extend the 16-word schedule by `k` further words (to 80 with k = 64). -/
def sha1Schedule (w : List Nat) : Nat → List Nat
  | 0 => w
  | k + 1 => sha1Schedule (sha1ExtendStep w) k

/-- The five 32-bit working registers of SHA-1. -/
structure Sha1State where
  a : Nat
  b : Nat
  c : Nat
  d : Nat
  e : Nat
deriving DecidableEq

/-- Round function selection. -/
def sha1F (i b c d : Nat) : Nat :=
  if i < 20 then (b &&& c) ||| ((b ^^^ 4294967295) &&& d)
  else if i < 40 then (b ^^^ c) ^^^ d
  else if i < 60 then ((b &&& c) ||| (b &&& d)) ||| (c &&& d)
  else (b ^^^ c) ^^^ d

/-- Round constant selection. -/
def sha1K (i : Nat) : Nat :=
  if i < 20 then 0x5A827999
  else if i < 40 then 0x6ED9EBA1
  else if i < 60 then 0x8F1BBCDC
  else 0xCA62C1D6

/-- One SHA-1 round: `iw` is the pair (round index, schedule word). -/
def sha1Round (st : Sha1State) (iw : Nat × Nat) : Sha1State :=
  let temp := (rotl32 5 st.a + sha1F iw.1 st.b st.c st.d + st.e + sha1K iw.1 + iw.2) % 4294967296
  ⟨temp, st.a, rotl32 30 st.b, st.c, st.d⟩

/-- Compress one 64-byte chunk into the running state. -/
def sha1Compress (h : Sha1State) (chunk : List Nat) : Sha1State :=
  let w := sha1Schedule (bytesToWordsBE chunk) 64
  let st := w.enum.foldl sha1Round h
  ⟨(h.a + st.a) % 4294967296, (h.b + st.b) % 4294967296, (h.c + st.c) % 4294967296,
   (h.d + st.d) % 4294967296, (h.e + st.e) % 4294967296⟩

/-- SHA-1 digest of a byte sequence, as 20 bytes. -/
def sha1Bytes (msg : List Nat) : List Nat :=
  let st := (chunks64 (sha1PadBytes msg)).foldl sha1Compress
    ⟨0x67452301, 0xEFCDAB89, 0x98BADCFE, 0x10325476, 0xC3D2E1F0⟩
  toBE32 st.a ++ toBE32 st.b ++ toBE32 st.c ++ toBE32 st.d ++ toBE32 st.e

/-- Lowercase hex digit. -/
def hexDigit (n : Nat) : Char :=
  "0123456789abcdef".toList.getD n '0'

/-- Lowercase hex encoding of a byte list (models hex::encode). -/
def hexEncode (bs : List Nat) : String :=
  String.mk (bs.foldr (fun b acc => hexDigit (b / 16) :: hexDigit (b % 16) :: acc) [])

/-- Hex SHA-1 of a byte sequence, the object identity format. -/
def sha1Hex (msg : List Nat) : String :=
  hexEncode (sha1Bytes msg)

/-! ## Byte/string helpers -/

/-- ASCII bytes of a string (all strings handled here are ASCII). -/
def asciiBytes (s : String) : List Nat :=
  s.toList.map Char.toNat

/-- Decode bytes as text; models String::from_utf8 on the ASCII subset. -/
def asciiDecode (bs : List Nat) : Option String :=
  if bs.all (· < 128) then some (String.mk (bs.map Char.ofNat)) else none

/-- Decimal parse; models str::parse::<usize> (digits only, 64-bit bound). -/
def parseUsize (s : String) : Option Nat :=
  let cs := s.toList
  if cs.isEmpty then none
  else if cs.all Char.isDigit then
    let v := cs.foldl (fun a c => a * 10 + (c.toNat - 48)) 0
    if v < 18446744073709551616 then some v else none
  else none

/-! ## Errors

The source reports recoverable errors as `Err(Box<dyn Error>)` built
from format strings; each `Err` site gets one constructor here.  The
`panic` constructor models process aborts: `assert!` failures,
`unwrap()` on `None`, `todo!()`, out-of-range slicing and `expect`. -/

inductive GitError where
  /-- The error Not a git repository, from GitRepository::new with force = false. -/
  | notARepository : GitError
  /-- The error Unknown type, from GitObject::new. -/
  | unknownObjectType (t : String) : GitError
  /-- The error Malformed object, bad length, from read_object; carries the identity. -/
  | lengthMismatch (sha : String) : GitError
  /-- ParseIntError propagated by the question-mark operator on size.parse. -/
  | parseIntError : GitError
  /-- FromUtf8Error propagated by the question-mark operator on String::from_utf8. -/
  | utf8Error : GitError
  /-- The error Not a directory, from repo_dir. -/
  | notADirectory : GitError
  /-- The error No git repository, from repo_find. -/
  | noRepositoryFound : GitError
  /-- A process abort (assert!, unwrap on None, todo!, bad slice, expect). -/
  | panic (msg : String) : GitError
deriving DecidableEq

/-! ## Object codec (enum GitObject and the GitObjectBehavior impls) -/

/-- The four-variant object type; each variant owns its payload bytes
(GitCommit / GitTree / GitTag / GitBlob each hold `data: Vec<u8>`). -/
inductive GitObject where
  | commit (data : List Nat) : GitObject
  | tree (data : List Nat) : GitObject
  | tag (data : List Nat) : GitObject
  | blob (data : List Nat) : GitObject
deriving DecidableEq

/-- The Display impl: the type token of the variant. -/
def GitObject.typeToken : GitObject → String
  | .commit _ => "commit"
  | .tree _ => "tree"
  | .tag _ => "tag"
  | .blob _ => "blob"

/-- GitObject::new (the decode dispatch): sequential comparison of the
type token against the four literals, wrapping the payload on a match
and failing with the unknown-type error otherwise. -/
def GitObject.new (data : List Nat) (object_type : String) : Except GitError GitObject :=
  if object_type = "commit" then .ok (.commit data)
  else if object_type = "tree" then .ok (.tree data)
  else if object_type = "tag" then .ok (.tag data)
  else if object_type = "blob" then .ok (.blob data)
  else .error (.unknownObjectType object_type)

/-- GitObject::serialize dispatching to the GitObjectBehavior impls:
GitTree and GitBlob return a reference to their payload unchanged;
GitCommit::serialize and GitTag::serialize are `todo!()`, which panics
at runtime — modelled by `none`. -/
def GitObject.serialize : GitObject → Option (List Nat)
  | .commit _ => none
  | .tree d => some d
  | .tag _ => none
  | .blob d => some d

/-! ## Filesystem model

Paths are lists of components from the filesystem root (all paths in
the modelled scenarios are canonical absolute paths, as produced by
`fs::canonicalize`).  The filesystem holds the set of existing
directories and the files with their contents; file contents are the
decompressed object bytes (zlib is a lossless pair: `write_object`
deflates on write and `read_object` inflates on read). -/

structure FS where
  dirs : List (List String)
  files : List (List String × List Nat)
deriving DecidableEq

/-- Path::is_dir. -/
def FS.isDir (fs : FS) (p : List String) : Bool :=
  fs.dirs.contains p

/-- Path::is_file. -/
def FS.isFile (fs : FS) (p : List String) : Bool :=
  (fs.files.map Prod.fst).contains p

/-- Path::exists. -/
def FS.pathExists (fs : FS) (p : List String) : Bool :=
  fs.isDir p || fs.isFile p

/-- File::open followed by a full read. -/
def FS.readFile (fs : FS) (p : List String) : Option (List Nat) :=
  (fs.files.find? (fun kv => kv.1 == p)).map Prod.snd

/-- The ancestor chain of `p` from the top down: p.take 1, p.take 2,
..., p — the directories `fs::create_dir_all` ensures exist. -/
def ancestorsTopDown (p : List String) : List (List String) :=
  (List.range p.length).map (fun i => p.take (i + 1))

/-- fs::create_dir_all (followed by the source's `.expect`): creates
every missing directory on the chain; fails — a panic through expect —
if a component on the chain exists as a regular file. -/
def createDirAll (fs : FS) (p : List String) : Option FS :=
  if (ancestorsTopDown p).any (fun q => fs.isFile q) then none
  else some { fs with dirs := fs.dirs ++ (ancestorsTopDown p).filter (fun q => !fs.isDir q) }

/-! ## Repository handle and path helpers -/

/-- struct GitRepository: worktree root and metadata directory. -/
structure GitRepository where
  worktree : List String
  gitdir : List String
deriving DecidableEq

/-- GitRepository::new: gitdir is worktree/.git; unless forced, the
handle is only valid when the metadata directory exists. -/
def GitRepository.new (fs : FS) (path : List String) (force : Bool) :
    Except GitError GitRepository :=
  let gitdir := path ++ [".git"]
  if !(force || fs.isDir gitdir) then .error .notARepository
  else .ok ⟨path, gitdir⟩

/-- repo_path: join the metadata directory with a relative path; pure. -/
def repo_path (repo : GitRepository) (rel : List String) : List String :=
  repo.gitdir ++ rel

/-- repo_dir, at the absolute path it receives from repo_file.  The
source re-joins its argument onto the gitdir via repo_path, but
Path::join returns the right operand unchanged when that operand is
absolute — which it always is for the one call site modelled here
(repo_file passes the absolute parent of an already-joined path) — so
the function operates on its argument directly.  If the path exists as
a directory it is returned; if it exists as a file the typed
not-a-directory error is returned; otherwise the whole chain is
created (a failure inside create_dir_all panics via expect). -/
def repo_dir (fs : FS) (path : List String) : FS × Except GitError (List String) :=
  if fs.pathExists path then
    if fs.isDir path then (fs, .ok path) else (fs, .error .notADirectory)
  else
    match createDirAll fs path with
    | some fs2 => (fs2, .ok path)
    | none => (fs, .error (.panic "expect on create_dir_all"))

/-- repo_file: computes the joined path, ensures its parent directory
chain exists via repo_dir, and returns the path.  The source discards
repo_dir's Result with a wildcard let, so a typed repo_dir error is
swallowed; a panic inside repo_dir still aborts and is propagated. -/
def repo_file (fs : FS) (repo : GitRepository) (rel : List String) :
    FS × Except GitError (List String) :=
  let path := repo_path repo rel
  let r := repo_dir fs path.dropLast
  match r.2 with
  | .error (.panic m) => (r.1, .error (.panic m))
  | _ => (r.1, .ok path)

/-! ## Object store -/

/-- The relative object path read_object derives from an identity:
objects/, the first two characters, the remaining characters (the
source slices the identity's bytes; identities are ASCII hex, so byte
and character indices coincide). -/
def objectRelPathRead (sha : String) : List String :=
  ["objects", String.mk (sha.toList.take 2), String.mk (sha.toList.drop 2)]

/-- The relative object path write_object derives from an identity.
The source's format string inserts a literal extra character 1 after
the two-character fan-out component. -/
def objectRelPathWrite (sha : String) : List String :=
  ["objects", String.mk (sha.toList.take 2) ++ "1", String.mk (sha.toList.drop 2)]

/-- The header-parsing tail of read_object (source lines 209-225),
applied to the decompressed file bytes: locate the first space byte
(unwrap: a miss panics), decode the type token (a typed utf8 error on
failure), locate the first null byte anywhere in the buffer (unwrap:
a miss panics), slice out the length field (start past end panics),
decode and parse it (from_utf8 unwrap panics, a parse failure is the
typed ParseIntError), check the declared length against the actual
payload size (typed length-mismatch error carrying the identity), and
dispatch to GitObject::new. -/
def read_object_inner (sha : String) (decompressed_data : List Nat) :
    Except GitError GitObject :=
  let file_length := decompressed_data.length
  match decompressed_data.findIdx? (fun b => b == 32) with
  | none => .error (.panic "unwrap on None")
  | some ascii_space =>
    match asciiDecode (decompressed_data.take ascii_space) with
    | none => .error .utf8Error
    | some object_type_string =>
      match decompressed_data.findIdx? (fun b => b == 0) with
      | none => .error (.panic "unwrap on None")
      | some null_byte =>
        if ascii_space + 1 > null_byte then .error (.panic "slice start past end")
        else
          match asciiDecode ((decompressed_data.drop (ascii_space + 1)).take (null_byte - (ascii_space + 1))) with
          | none => .error (.panic "unwrap on from_utf8")
          | some size_str =>
            match parseUsize size_str with
            | none => .error .parseIntError
            | some size =>
              if size ≠ file_length - null_byte - 1 then
                .error (.lengthMismatch sha)
              else
                GitObject.new (decompressed_data.drop (null_byte + 1)) object_type_string

/-- read_object: derive the object path from the identity (slicing an
identity shorter than two bytes panics), resolve it through repo_file
(which ensures the parent directory exists as a side effect), assert
that the file exists (an absent file panics the process), read and
decompress it, and parse the result. -/
def read_object (fs : FS) (repo : GitRepository) (sha : String) :
    FS × Except GitError GitObject :=
  if sha.toList.length < 2 then (fs, .error (.panic "byte index out of bounds"))
  else
    let r := repo_file fs repo (objectRelPathRead sha)
    match r.2 with
    | .error e => (r.1, .error e)
    | .ok path =>
      if r.1.isFile path then
        match r.1.readFile path with
        | some dd => (r.1, read_object_inner sha dd)
        | none => (r.1, .error (.panic "File::open"))
      else (r.1, .error (.panic "assertion failed"))

/-- write_object: serialize the object (the unwrap panics for the
todo!() variants), build the header from the type token and the
decimal payload length followed by a null byte, hash header plus
payload with SHA-1 and hex-encode the digest as the identity, derive
the on-disk path (with the stray extra character of the source's
format string), ensure its parent directory exists via repo_file, and
write the compressed bytes only when no file exists at that path.
Returns the identity. -/
def write_object (fs : FS) (repo : GitRepository) (obj : GitObject) :
    FS × Except GitError String :=
  match obj.serialize with
  | none => (fs, .error (.panic "not yet implemented"))
  | some data =>
    let header := asciiBytes (obj.typeToken ++ " " ++ toString data.length) ++ [0]
    let file_content := header ++ data
    let sha1_hex := sha1Hex file_content
    let r := repo_file fs repo (objectRelPathWrite sha1_hex)
    match r.2 with
    | .error e => (r.1, .error e)
    | .ok path =>
      if r.1.pathExists path then (r.1, .ok sha1_hex)
      else ({ r.1 with files := r.1.files ++ [(path, file_content)] }, .ok sha1_hex)

/-! ## Repository discovery -/

/-- The ancestor loop of repo_find: while the current path has a
parent, check the parent for a metadata directory; open the first
match; fail with the no-repository error when the root's parent is
reached. -/
def repo_find_loop (fs : FS) : List String → Except GitError GitRepository
  | [] => .error .noRepositoryFound
  | a :: l =>
    let parent := (a :: l).dropLast
    if fs.isDir (parent ++ [".git"]) then GitRepository.new fs parent false
    else repo_find_loop fs parent
termination_by l => l.length
decreasing_by simp [List.length_dropLast]

/-- repo_find: canonicalize the start path (the model's paths are
already canonical), check the path itself for a metadata directory,
then walk the ancestor chain. -/
def repo_find (fs : FS) (path : List String) : Except GitError GitRepository :=
  if fs.isDir (path ++ [".git"]) then GitRepository.new fs path false
  else repo_find_loop fs path

/-- The ancestor chain of a path, nearest first, ending at the root. -/
def ancestorChain : List String → List (List String)
  | [] => [[]]
  | a :: l => (a :: l) :: ancestorChain ((a :: l).dropLast)
termination_by l => l.length
decreasing_by simp [List.length_dropLast]

/-! ## Concrete fixtures

A freshly materialized repository rooted at /r: the metadata directory
and its objects subdirectory exist and no object file is stored yet. -/

def repoFS : FS :=
  ⟨[["r"], ["r", ".git"], ["r", ".git", "objects"]], []⟩

def repoR : GitRepository :=
  ⟨["r"], ["r", ".git"]⟩

def helloBytes : List Nat :=
  asciiBytes "hello"

def helloId : String :=
  "b6fc4c620b67d95f953a5c1c1230aaab5db5a1b0"

/-- The fan-out directory that read_object's path resolution ensures
exists: the parent of the object path it derives from the identity. -/
def fanoutDir (repo : GitRepository) (sha : String) : List String :=
  (repo_path repo (objectRelPathRead sha)).dropLast

/-! ## Claims -/

/-- C1: the round-trip property fails on the code.  Writing
Blob("hello") into a fresh repository returns the correct identity,
but the write stores the file under the path with the stray extra
character in the fan-out component, so reading that identity back
finds no file at the path read_object derives and the read aborts at
the is_file assertion instead of yielding the blob. -/
theorem c1_roundtrip_broken :
    (write_object repoFS repoR (GitObject.blob helloBytes)).2 = .ok helloId
    ∧ (read_object (write_object repoFS repoR (GitObject.blob helloBytes)).1 repoR helloId).2
      = .error (.panic "assertion failed") := by decide

/-- C2: the path write_object derives from an identity is not
objects/first-two/remaining-38 — its fan-out component carries a stray
trailing character 1 — and it differs from the path read_object
derives from the same identity. -/
theorem c2_write_path_stray_char :
    objectRelPathWrite helloId
      = ["objects", "b61", "fc4c620b67d95f953a5c1c1230aaab5db5a1b0"]
    ∧ objectRelPathRead helloId
      = ["objects", "b6", "fc4c620b67d95f953a5c1c1230aaab5db5a1b0"]
    ∧ objectRelPathWrite helloId ≠ objectRelPathRead helloId := by decide

/-- C3: writing Blob("hello") does return the 40-character lowercase
hex SHA-1 of the exact framed bytes (identity
b6fc4c620b67d95f953a5c1c1230aaab5db5a1b0), but the claim's universal
quantification over every object fails: writing a Commit panics,
because GitCommit::serialize is todo!(). -/
theorem c3_identity_sha1 :
    (write_object repoFS repoR (GitObject.commit [])).2
      = .error (.panic "not yet implemented")
    ∧ (write_object repoFS repoR (GitObject.blob helloBytes)).2 = .ok helloId
    ∧ sha1Hex (asciiBytes "blob 5" ++ 0 :: helloBytes) = helloId
    ∧ helloId.length = 40 := by decide

/-- C4: serialization is the identity on the payload only for the
Tree and Blob variants; GitCommit::serialize and GitTag::serialize
are todo!() and panic instead of returning the payload. -/
theorem c4_serialize_not_total (p : List Nat) :
    GitObject.serialize (.blob p) = some p
    ∧ GitObject.serialize (.tree p) = some p
    ∧ GitObject.serialize (.commit p) = none
    ∧ GitObject.serialize (.tag p) = none := by
  refine ⟨rfl, rfl, rfl, rfl⟩

/-- C6: a decompressed buffer with no space byte, or with no null
byte, makes read_object call unwrap on None — a process abort, not a
typed error; only the non-digit length field yields a typed error
(the propagated ParseIntError). -/
theorem c6_malformed_header_panics :
    read_object_inner "aa" (asciiBytes "blob") = .error (.panic "unwrap on None")
    ∧ read_object_inner "aa" (asciiBytes "blob 4abc") = .error (.panic "unwrap on None")
    ∧ read_object_inner "aa" (asciiBytes "blob x" ++ 0 :: asciiBytes "y")
      = .error .parseIntError := by decide

/-- C7: reading an identity with no file at the derived path aborts
the process at the assert on path.is_file() instead of returning a
typed object-not-found error. -/
theorem c7_absent_object_panics :
    (read_object repoFS repoR helloId).2 = .error (.panic "assertion failed") := by decide

/-- C5: on a decompressed buffer with a well-formed header — a first
space at `i` with a decodable type token before it, a first null at
`j` past the space, and a length field that parses to `size` — whose
declared length disagrees with the actual payload size, read_object
returns the typed length-mismatch error carrying the identity. -/
theorem c5_length_mismatch (sha : String) (dd : List Nat) (i j size : Nat) (tok szs : String)
    (hsp : dd.findIdx? (fun b => b == 32) = some i)
    (htok : asciiDecode (dd.take i) = some tok)
    (hnul : dd.findIdx? (fun b => b == 0) = some j)
    (hij : i + 1 ≤ j)
    (hszs : asciiDecode ((dd.drop (i + 1)).take (j - (i + 1))) = some szs)
    (hsz : parseUsize szs = some size)
    (hneq : size ≠ dd.length - j - 1) :
    read_object_inner sha dd = .error (.lengthMismatch sha) := by
  simp only [read_object_inner, hsp, htok, hnul, hszs, hsz]
  rw [if_neg (by omega), if_pos hneq]

/-- Witness for C5: a stored blob object declaring length 3 over a
2-byte payload is rejected with the length-mismatch error. -/
theorem c5_length_mismatch_witness :
    read_object_inner "ab" (asciiBytes "blob 3" ++ 0 :: asciiBytes "hi")
      = .error (.lengthMismatch "ab") :=
  c5_length_mismatch "ab" (asciiBytes "blob 3" ++ 0 :: asciiBytes "hi") 4 6 3 "blob" "3"
    (by decide) (by decide) (by decide) (by decide) (by decide) (by decide) (by decide)

/-- C9: the decode dispatch accepts exactly the four fixed type tokens,
wrapping the payload unvalidated in the matching variant, and fails
with the unknown-type error on every other token. -/
theorem c9_decode_dispatch (t : String) (p : List Nat) :
    (t ≠ "commit" → t ≠ "tree" → t ≠ "tag" → t ≠ "blob" →
      GitObject.new p t = .error (.unknownObjectType t))
    ∧ GitObject.new p "blob" = .ok (.blob p)
    ∧ GitObject.new p "tree" = .ok (.tree p)
    ∧ GitObject.new p "commit" = .ok (.commit p)
    ∧ GitObject.new p "tag" = .ok (.tag p) := by
  refine ⟨fun h1 h2 h3 h4 => ?_, rfl, rfl, rfl, rfl⟩
  simp [GitObject.new, h1, h2, h3, h4]

/-- Witness for C9: the token widget is rejected. -/
theorem c9_decode_dispatch_witness :
    GitObject.new [1] "widget" = .error (.unknownObjectType "widget") :=
  (c9_decode_dispatch "widget" [1]).1 (by decide) (by decide) (by decide) (by decide)

/-- The discovery loop on a nonempty path coincides with discovery
started at the path's parent. -/
theorem repo_find_loop_eq_parent (fs : FS) (a : String) (l : List String) :
    repo_find_loop fs (a :: l) = repo_find fs ((a :: l).dropLast) := by
  rw [repo_find_loop, repo_find]

/-- C8: discovery checks the start path and then each ancestor in
turn, nearest first; it opens a repository at the first directory of
the chain that contains a metadata directory and fails with the
no-repository error when the chain is exhausted. -/
theorem c8_discover_ancestors (fs : FS) (p : List String) :
    repo_find fs p =
      ((ancestorChain p).find? (fun q => fs.isDir (q ++ [".git"]))).elim
        (.error .noRepositoryFound) (fun q => .ok ⟨q, q ++ [".git"]⟩) := by
  suffices H : ∀ n (p : List String), p.length ≤ n →
      repo_find fs p =
        ((ancestorChain p).find? (fun q => fs.isDir (q ++ [".git"]))).elim
          (.error .noRepositoryFound) (fun q => .ok ⟨q, q ++ [".git"]⟩) by
    exact H p.length p le_rfl
  intro n
  induction n with
  | zero =>
    intro p hp
    have hpnil : p = [] := List.length_eq_zero.mp (Nat.le_zero.mp hp)
    subst hpnil
    by_cases h : fs.isDir ([] ++ [".git"]) = true
    · have h2 : fs.isDir [".git"] = true := by simpa using h
      unfold repo_find
      rw [if_pos h]
      simp [ancestorChain, GitRepository.new, h2]
    · have h2 : fs.isDir [".git"] = false := by simpa using h
      unfold repo_find
      rw [if_neg h]
      simp [ancestorChain, repo_find_loop, h2]
  | succ n ih =>
    intro p hp
    match p with
    | [] =>
      by_cases h : fs.isDir ([] ++ [".git"]) = true
      · have h2 : fs.isDir [".git"] = true := by simpa using h
        unfold repo_find
        rw [if_pos h]
        simp [ancestorChain, GitRepository.new, h2]
      · have h2 : fs.isDir [".git"] = false := by simpa using h
        unfold repo_find
        rw [if_neg h]
        simp [ancestorChain, repo_find_loop, h2]
    | a :: l =>
      by_cases h : fs.isDir ((a :: l) ++ [".git"]) = true
      · have h2 : fs.isDir (a :: (l ++ [".git"])) = true := by simpa using h
        unfold repo_find
        rw [if_pos h]
        simp [ancestorChain, GitRepository.new, h2]
      · have h2 : fs.isDir (a :: (l ++ [".git"])) = false := by simpa using h
        unfold repo_find
        rw [if_neg h, repo_find_loop_eq_parent,
          ih ((a :: l).dropLast)
            (by simp only [List.length_dropLast, List.length_cons] at hp ⊢; omega)]
        rw [ancestorChain]
        simp [h2]


/-- When every ancestor of `p` except `p` itself already exists as a
directory and none exists as a file, create_dir_all adds exactly the
directory `p`. -/
theorem createDirAll_single_missing (fs : FS) (p : List String)
    (hno : (ancestorsTopDown p).any (fun q => fs.isFile q) = false)
    (hf : (ancestorsTopDown p).filter (fun q => !fs.isDir q) = [p]) :
    createDirAll fs p = some { fs with dirs := fs.dirs ++ [p] } := by
  unfold createDirAll
  simp only [hno, hf]
  simp

/-- repo_dir on a missing path returns the filesystem produced by
create_dir_all. -/
theorem repo_dir_creates (fs : FS) (p : List String) (fs2 : FS)
    (hmiss : fs.pathExists p = false)
    (hc : createDirAll fs p = some fs2) :
    repo_dir fs p = (fs2, .ok p) := by
  unfold repo_dir
  simp [hmiss, hc]

/-- repo_file returns the joined path together with the filesystem
left by ensuring the parent directory. -/
theorem repo_file_creates (fs : FS) (repo : GitRepository) (rel : List String) (fs2 : FS)
    (h : repo_dir fs (repo_path repo rel).dropLast = (fs2, .ok (repo_path repo rel).dropLast)) :
    repo_file fs repo rel = (fs2, .ok (repo_path repo rel)) := by
  simp only [repo_file]
  rw [h]

/-- Projection fact: whether a path is a file does not depend on the
directory set. -/
theorem isFile_update_dirs (fs : FS) (d : List (List String)) (p : List String) :
    FS.isFile ⟨d, fs.files⟩ p = fs.isFile p := rfl

/-- C10: on a repository whose metadata directory chain exists but
whose two-character fan-out directory for the identity does not,
read_object of an absent object creates exactly that fan-out
directory — a filesystem mutation performed by path resolution before
the file-existence check — and changes nothing else: the directory
set grows by the single fan-out path and the file set is untouched,
while the read itself fails. -/
theorem c10_read_creates_fanout (fs : FS) (repo : GitRepository) (sha : String)
    (h2 : 2 ≤ sha.toList.length)
    (hmiss : fs.pathExists (fanoutDir repo sha) = false)
    (hnofile : (ancestorsTopDown (fanoutDir repo sha)).any (fun q => fs.isFile q) = false)
    (hfilter : (ancestorsTopDown (fanoutDir repo sha)).filter (fun q => !fs.isDir q)
      = [fanoutDir repo sha])
    (hobj : fs.isFile (repo_path repo (objectRelPathRead sha)) = false) :
    read_object fs repo sha =
      ({ fs with dirs := fs.dirs ++ [fanoutDir repo sha] },
       .error (.panic "assertion failed")) := by
  have hc := createDirAll_single_missing fs (fanoutDir repo sha) hnofile hfilter
  have hd := repo_dir_creates fs (fanoutDir repo sha) _ hmiss hc
  have hfile := repo_file_creates fs repo (objectRelPathRead sha)
    { fs with dirs := fs.dirs ++ [fanoutDir repo sha] } (by exact hd)
  unfold read_object
  rw [if_neg (by omega)]
  simp only [hfile]
  rw [isFile_update_dirs, hobj]
  simp

/-- Witness for C10: in a fresh repository with no stored objects,
reading the identity abcd creates the fan-out directory ab and fails. -/
theorem c10_read_creates_fanout_witness :
    read_object repoFS repoR "abcd"
      = ({ repoFS with dirs := repoFS.dirs ++ [fanoutDir repoR "abcd"] },
         .error (.panic "assertion failed")) :=
  c10_read_creates_fanout repoFS repoR "abcd"
    (by decide) (by decide) (by decide) (by decide) (by decide)
